import Mathlib

/-!
Verification of the duplicate-detection / record-linkage core of the
python-scraping repository against its natural-language specification.

The embedding follows the canonical implementation in
`scrapingtool/db_manager.py` (`index_duplicate_sets`, `update_duplicate_set`,
`update_alert_flags`) and, for the short-title normalizer, `db_manager.py`
(`get_short_title`, lines 317-355).

Modelling conventions:
* `avg_rating` (Python float or None) is `Option ℚ`; `total_ratings`
  (Python int, non-null in every claim considered) is `ℤ`; titles are
  `String`, and the normalizer works over `List Char` (a Python `str` is a
  sequence of characters).
* The regex-based model-name extraction at lines 1578-1586 of
  `scrapingtool/db_manager.py` (`re.match(pattern, obj.title.lower())`, with
  fallback to `short_title` on exception) is a per-listing function of the
  row; it is abstracted as an explicit parameter `mname : Listing → String`,
  and every theorem below holds for an arbitrary such extractor.
* Python dicts keyed by `product_id` are association lists with
  overwrite-update; the SQL query results are explicit `List Listing`
  arguments, `filter`ed exactly as the corresponding queries.
-/

/-- One row of the ProductListing table, restricted to the fields read or
written by the duplicate-detection core.  `duplicate_set` is the nullable
cluster id and `alert` the auditor flag. -/
structure Listing where
  product_id : String
  category : String
  brand : String
  title : String
  short_title : String
  avg_rating : Option ℚ
  total_ratings : ℤ
  duplicate_set : Option ℤ
  alert : Bool
deriving DecidableEq, Repr

/-- Signal `a` of `index_duplicate_sets` (line 1558):
`obj1.short_title == obj2.short_title`. -/
def sameTitle (x y : Listing) : Bool :=
  decide (x.short_title = y.short_title)

/-- Signal `b` (line 1559): `avg_rating` equal (including both-null), or both
non-null and within `0.1` of each other. -/
def sameRating (x y : Listing) : Bool :=
  decide (x.avg_rating = y.avg_rating) ||
    (match x.avg_rating, y.avg_rating with
     | some r1, some r2 => decide (|r1 - r2| ≤ 1/10)
     | _, _ => false)

/-- Signal `c` (line 1560): `total_ratings` equal, or
`abs(difference) <= 0.1 * max(total_ratings)` (`DELTA = 0.1`).  The exact
inequality is stated with cleared denominators (`10 * abs(difference) <=
max`), which is algebraically identical over exact arithmetic; the theorem
`closeCount_single_regime` below proves the equality with the literal
`0.1 * max` rational formulation.  Both fields are non-null in the model, so
the Python `is not None` guards are vacuous. -/
def closeCount (x y : Listing) : Bool :=
  decide (x.total_ratings = y.total_ratings) ||
    decide (10 * |x.total_ratings - y.total_ratings| ≤
      max x.total_ratings y.total_ratings)

/-- The entry condition of the verdict branch (line 1562):
`(a & b) | (b & c) | (c & a)`. -/
def baseVerdict (x y : Listing) : Bool :=
  sameTitle x y && sameRating x y || sameRating x y && closeCount x y ||
    closeCount x y && sameTitle x y

/-- The `duplicate_flag` computed inside the branch of lines 1562-1606,
starting from `duplicate_flag = True`.  Each shadowing `let flag` mirrors one
`if` statement of the source in order: the suspicious same-title /
far-count veto (1566-1574), the model-name comparison with the stricter
count conditions (1576-1599), the `if c == False` override (1600-1601), and
the `very_strict` equality requirement (1603-1606). -/
def guardedFlag (mname : Listing → String) (vstrict : Bool) (x y : Listing) : Bool :=
  let a := sameTitle x y
  let c := closeCount x y
  let dt := |x.total_ratings - y.total_ratings|
  let flag := true
  let flag :=
    if flag && (a && !c) then
      if 1000 < max x.total_ratings y.total_ratings then
        if 60 < dt then false else flag
      else
        if 20 < dt then false else flag
    else flag
  let flag :=
    if flag && !a then
      if mname x ≠ mname y then
        if sameRating x y then
          if x.total_ratings = y.total_ratings then flag
          else if 1000 < min x.total_ratings y.total_ratings ∧ 500 < dt then false
          else if 100 < min x.total_ratings y.total_ratings ∧ 50 < dt then false
          else flag
        else flag
      else flag
    else flag
  let flag := if !c then false else flag
  let flag :=
    if vstrict && flag then
      if x.total_ratings ≠ y.total_ratings ∨ x.avg_rating ≠ y.avg_rating then false
      else flag
    else flag
  flag

/-- The full pairwise similarity verdict of `index_duplicate_sets`
(lines 1558-1606): false unless the base condition holds, otherwise the
guarded flag. -/
def isDup (mname : Listing → String) (vstrict : Bool) (x y : Listing) : Bool :=
  if baseVerdict x y then guardedFlag mname vstrict x y else false

/-- A trivial instantiation of the abstract model-name extractor: the
exception fallback of lines 1581-1586 (`model_a = obj1.short_title`). -/
def mnameFallback : Listing → String := fun l => l.short_title

/-- A second instantiation, constant, under which the extracted model names
of any two listings coincide. -/
def mnameConst : Listing → String := fun _ => ""

theorem sameTitle_comm (x y : Listing) : sameTitle x y = sameTitle y x := by
  simp [sameTitle, eq_comm]

theorem sameRating_comm (x y : Listing) : sameRating x y = sameRating y x := by
  unfold sameRating
  rcases x.avg_rating with _ | r1 <;> rcases y.avg_rating with _ | r2 <;>
    simp [eq_comm, abs_sub_comm]

theorem closeCount_comm (x y : Listing) : closeCount x y = closeCount y x := by
  unfold closeCount
  rw [max_comm, abs_sub_comm]
  simp only [eq_comm]

theorem baseVerdict_comm (x y : Listing) : baseVerdict x y = baseVerdict y x := by
  unfold baseVerdict
  rw [sameTitle_comm, sameRating_comm, closeCount_comm]

theorem guardedFlag_comm (m : Listing → String) (v : Bool) (x y : Listing) :
    guardedFlag m v x y = guardedFlag m v y x := by
  unfold guardedFlag
  rw [sameTitle_comm, sameRating_comm, closeCount_comm, max_comm, min_comm,
    abs_sub_comm]
  simp only [ne_comm, eq_comm (a := x.total_ratings), eq_comm (a := x.avg_rating),
    eq_comm (a := m x)]

theorem isDup_comm (m : Listing → String) (v : Bool) (x y : Listing) :
    isDup m v x y = isDup m v y x := by
  unfold isDup
  rw [baseVerdict_comm, guardedFlag_comm]

/-!
Short-Title Normalizer: `get_short_title` of `db_manager.py` (lines 317-355),
embedded over `List Char`.  Python `result.split(delim)` is used by the
source only through `len(bar) == 1` (the delimiter does not occur in
`result`) and `bar[0]` (the segment before the first occurrence); these are
embedded as `occursIn` and `prefixBefore`.
-/

/-- Python `s.strip()`: remove leading and trailing whitespace. -/
def trimL (l : List Char) : List Char :=
  ((l.dropWhile Char.isWhitespace).reverse.dropWhile Char.isWhitespace).reverse

/-- Whether `sep` occurs as a contiguous substring (Python `sep in s`,
equivalently `len(s.split(sep)) > 1` for non-empty `sep`). -/
def occursIn (sep : List Char) : List Char → Bool
  | [] => sep.isPrefixOf ([] : List Char)
  | c :: rest => sep.isPrefixOf (c :: rest) || occursIn sep rest

/-- The segment of `l` before the first occurrence of `sep`
(Python `s.split(sep)[0]`). -/
def prefixBefore (sep : List Char) : List Char → List Char
  | [] => []
  | c :: rest => if sep.isPrefixOf (c :: rest) then [] else c :: prefixBefore sep rest

/-- Python `s.split()`: whitespace-separated words, empties discarded.
`acc` carries the reversed current word. -/
def wordsAux : List Char → List Char → List (List Char)
  | [], acc => if acc = [] then [] else [acc.reverse]
  | c :: rest, acc =>
    if c.isWhitespace then
      if acc = [] then wordsAux rest [] else acc.reverse :: wordsAux rest []
    else wordsAux rest (c :: acc)

/-- Python `s.split()` over `List Char`. -/
def wordsL (l : List Char) : List (List Char) := wordsAux l []

/-- The ordered delimiter list of line 326 of `db_manager.py`
(`DELIMITERS = ['tws', 'true', 'wired', 'wireless', 'in-ear', 'in ear',
'on-ear', 'on ear'] + ['with', '[', open-brace, '(', ',']`). -/
def DELIMITERS : List (List Char) :=
  ["tws".toList, "true".toList, "wired".toList, "wireless".toList,
   "in-ear".toList, "in ear".toList, "on-ear".toList, "on ear".toList,
   "with".toList, "[".toList, "\x7b".toList, "(".toList, ",".toList]

/-- Loop state of lines 327-342: the (mutated) remaining string `result`,
the shortest candidate `fin`, the second-shortest candidate `temp`, and the
current shortest length `slen`. -/
structure NormState where
  result : List Char
  fin : List Char
  temp : List Char
  slen : Nat
deriving DecidableEq, Repr

/-- One iteration of the delimiter loop (lines 330-342): strip the delimiter
if it is a prefix of `result` (re-stripping whitespace), then, if the
delimiter occurs in the remainder, consider the segment before its first
occurrence as a candidate, keeping it when strictly shorter than the best so
far and demoting the previous best to `temp`. -/
def normStep (st : NormState) (d : List Char) : NormState :=
  let result := if d.isPrefixOf st.result then trimL (st.result.drop d.length) else st.result
  if occursIn d result then
    let short := trimL (prefixBefore d result)
    if short.length < st.slen then
      { result := result, temp := st.fin, fin := short, slen := short.length }
    else { st with result := result }
  else { st with result := result }

/-- Lines 317-355 of `db_manager.py`: strip a leading `(Renewed)` marker,
lowercase, run the delimiter loop, fall back to the second-shortest
candidate when the shortest has at most one word, and drop one trailing
punctuation character.  The `None` input case propagates `None` in Python
and is outside this total model over actual titles. -/
def get_short_title (title : List Char) : List Char :=
  let t := if "(Renewed)".toList.isPrefixOf title then trimL (title.drop 9) else title
  let result := t.map Char.toLower
  let st := DELIMITERS.foldl normStep
    { result := result, fin := result, temp := result, slen := result.length }
  let fin := trimL st.fin
  let fin :=
    if (wordsL fin).length ≤ 1 then
      if (wordsL st.temp).length ≤ 1 then fin else trimL st.temp
    else fin
  match fin.getLast? with
  | some ch => if ch ∈ ([',', '.', ':', '-'] : List Char) then fin.dropLast else fin
  | none => fin

/-- Formalization of a "valid title shape": already trimmed and lowercase,
carrying no `(Renewed)` marker, containing no delimiter of the normalizer,
and not ending in one of the stripped punctuation characters.  On such
strings every branch of `get_short_title` is the identity. -/
def validTitleShape (s : List Char) : Bool :=
  !("(Renewed)".toList.isPrefixOf s) &&
  decide (trimL s = s) &&
  decide (s.map Char.toLower = s) &&
  DELIMITERS.all (fun d => !occursIn d s) &&
  (match s.getLast? with
   | some ch => !(ch ∈ ([',', '.', ':', '-'] : List Char) : Bool)
   | none => true)

theorem occursIn_false_not_isPrefixOf (d s : List Char) (h : occursIn d s = false) :
    d.isPrefixOf s = false := by
  cases s with
  | nil => simpa [occursIn] using h
  | cons c rest =>
    unfold occursIn at h
    exact (Bool.or_eq_false_iff.mp h).1

theorem normStep_fixed (s : List Char) (d : List Char) (h : occursIn d s = false) :
    normStep { result := s, fin := s, temp := s, slen := s.length } d =
      { result := s, fin := s, temp := s, slen := s.length } := by
  unfold normStep
  rw [occursIn_false_not_isPrefixOf d s h]
  simp [h]

theorem foldl_normStep_fixed (s : List Char) (ds : List (List Char))
    (h : ∀ d ∈ ds, occursIn d s = false) :
    ds.foldl normStep { result := s, fin := s, temp := s, slen := s.length } =
      { result := s, fin := s, temp := s, slen := s.length } := by
  induction ds with
  | nil => rfl
  | cons d ds ih =>
    rw [List.foldl_cons, normStep_fixed s d (h d (List.mem_cons_self d ds))]
    exact ih (fun e he => h e (List.mem_cons_of_mem d he))

theorem validTitleShape_fixed (s : List Char) (h : validTitleShape s = true) :
    get_short_title s = s := by
  unfold validTitleShape at h
  simp only [Bool.and_eq_true, Bool.not_eq_true', decide_eq_true_eq,
    List.all_eq_true] at h
  obtain ⟨⟨⟨⟨hren, htrim⟩, hlow⟩, hdel⟩, hlast⟩ := h
  unfold get_short_title
  rw [hren]
  simp only [Bool.false_eq_true, if_false]
  rw [hlow]
  rw [foldl_normStep_fixed s DELIMITERS
    (fun d hd => by simpa using hdel d hd)]
  simp only [htrim, ite_self]
  cases hg : s.getLast? with
  | none => rfl
  | some ch =>
    rw [hg] at hlast
    have hch : ¬ (ch ∈ ([',', '.', ':', '-'] : List Char)) := by
      simpa using hlast
    simp [hch]

/-!
Clustering Engine: `index_duplicate_sets` of `scrapingtool/db_manager.py`
(lines 1502-1621) and its incremental variant `update_duplicate_set`
(lines 1498-1499, i.e. `index_all=False`).  The Python dict `info` mapping
`product_id` to a cluster id is an association list with overwrite-update;
`get_max` (lines 1539-1544) folds `max` over its values starting from the
`num_sets` baseline.
-/

/-- Lookup in the `info` dict. -/
def lookupInfo : List (String × ℤ) → String → Option ℤ
  | [], _ => none
  | kv :: rest, k => if kv.1 = k then some kv.2 else lookupInfo rest k

/-- Overwrite-update of the `info` dict (`info[k] = v`). -/
def updInfo (info : List (String × ℤ)) (k : String) (v : ℤ) : List (String × ℤ) :=
  (k, v) :: info.filter (fun kv => kv.1 ≠ k)

/-- `get_max(info)` of lines 1539-1544: the maximum of `num_sets` and all
values of `info`. -/
def getMaxIdx (numSets : ℤ) (info : List (String × ℤ)) : ℤ :=
  info.foldl (fun m kv => max m kv.2) numSets

/-- The inner scan of lines 1554-1615 over the category+brand partition `q`:
skip `obj1` itself; at the FIRST partner satisfying the base condition of
line 1562, compute the guarded flag, perform the `info` assignment of lines
1608-1613 (join the partner's id when it is already assigned, otherwise mint
`get_max + 1` for both), and `break`, returning the updated dict and the
flag.  If no partner satisfies the base condition, the dict is unchanged and
the flag is false. -/
def innerScan (mname : Listing → String) (vstrict : Bool) (numSets : ℤ)
    (obj1 : Listing) (info : List (String × ℤ)) :
    List Listing → List (String × ℤ) × Bool
  | [] => (info, false)
  | obj2 :: rest =>
    if obj2.product_id = obj1.product_id then
      innerScan mname vstrict numSets obj1 info rest
    else if baseVerdict obj1 obj2 then
      let flag := guardedFlag mname vstrict obj1 obj2
      let info2 :=
        match lookupInfo info obj2.product_id with
        | some v => updInfo info obj1.product_id v
        | none =>
          let m := getMaxIdx numSets info
          updInfo (updInfo info obj1.product_id (m + 1)) obj2.product_id (m + 1)
      (info2, flag)
    else innerScan mname vstrict numSets obj1 info rest

/-- One iteration of the outer loop (lines 1546-1621): skip `obj1` when
already assigned; otherwise scan its category+brand partition of the catalog
(the query of line 1550), and if the returned `duplicate_flag` is false give
`obj1` a fresh id `get_max + 1` (lines 1617-1621), overwriting any
assignment the inner scan made for it. -/
def processStep (mname : Listing → String) (vstrict : Bool) (numSets : ℤ)
    (catalog : List Listing) (info : List (String × ℤ)) (obj1 : Listing) :
    List (String × ℤ) :=
  if (lookupInfo info obj1.product_id).isSome then info
  else
    let q := catalog.filter
      (fun o => decide (o.category = obj1.category) && decide (o.brand = obj1.brand))
    let res := innerScan mname vstrict numSets obj1 info q
    if res.2 then res.1
    else updInfo res.1 obj1.product_id (getMaxIdx numSets res.1 + 1)

/-- Full reindex (`index_all=True`): outer scan over the whole catalog,
`num_sets = 1` (line 1526), empty initial `info`.  `catalog` is the query
result ordered by (category asc, brand asc, total_ratings desc). -/
def index_duplicate_sets_run (mname : Listing → String) (vstrict : Bool)
    (catalog : List Listing) : List (String × ℤ) :=
  catalog.foldl (processStep mname vstrict 1 catalog) []

/-- SQL `max(ProductListing.duplicate_set)` over the catalog
(null values ignored, `None` when no row has one). -/
def maxDupSet (catalog : List Listing) : Option ℤ :=
  catalog.foldl
    (fun m l =>
      match l.duplicate_set with
      | none => m
      | some v => match m with | none => some v | some w => some (max w v))
    none

/-- Lines 1517-1524: the `num_sets` baseline of an incremental run is the
maximum existing `duplicate_set`, replaced by `1` when null or non-positive. -/
def numSetsIncr (catalog : List Listing) : ℤ :=
  match maxDupSet catalog with
  | none => 1
  | some m => if m ≤ 0 then 1 else m

/-- Lines 1532-1535: the initial `info` of an incremental run maps every
listing with a non-null `duplicate_set` to that value. -/
def seedInfo (catalog : List Listing) : List (String × ℤ) :=
  catalog.filterMap (fun l => l.duplicate_set.map (fun v => (l.product_id, v)))

/-- Incremental reindex (`update_duplicate_set`, lines 1498-1499 with
`index_all=False`): the outer scan is restricted to listings whose
`duplicate_set` is null (line 1513), `info` is pre-seeded from all non-null
assignments, and `num_sets` is the existing maximum; the inner partition
query (line 1550) still ranges over the whole catalog. -/
def update_duplicate_set_run (mname : Listing → String) (vstrict : Bool)
    (catalog : List Listing) : List (String × ℤ) :=
  (catalog.filter (fun l => l.duplicate_set.isNone)).foldl
    (processStep mname vstrict (numSetsIncr catalog) catalog) (seedInfo catalog)

theorem lookupInfo_filter_ne (info : List (String × ℤ)) (k kx : String)
    (h : k ≠ kx) :
    lookupInfo (info.filter (fun kv => kv.1 ≠ kx)) k = lookupInfo info k := by
  induction info with
  | nil => rfl
  | cons kv rest ih =>
    simp only [List.filter_cons]
    by_cases hkv : kv.1 = kx
    · have hd : decide (kv.1 ≠ kx) = false := by simp [hkv]
      rw [hd]
      simp only [Bool.false_eq_true, if_false]
      rw [ih]
      have hne : kv.1 ≠ k := by rw [hkv]; exact fun he => h he.symm
      simp [lookupInfo, hne]
    · have hd : decide (kv.1 ≠ kx) = true := by simp [hkv]
      rw [hd]
      simp only [if_true, lookupInfo]
      rw [ih]

theorem lookupInfo_upd_self (info : List (String × ℤ)) (k : String) (v : ℤ) :
    lookupInfo (updInfo info k v) k = some v := by
  simp [updInfo, lookupInfo]

theorem lookupInfo_upd_ne (info : List (String × ℤ)) (k kx : String) (v : ℤ)
    (h : kx ≠ k) :
    lookupInfo (updInfo info kx v) k = lookupInfo info k := by
  simp only [updInfo, lookupInfo, h, if_neg]
  exact lookupInfo_filter_ne info k kx (fun he => h he.symm)

theorem innerScan_preserves (mname : Listing → String) (vstrict : Bool)
    (numSets : ℤ) (obj1 : Listing) (q : List Listing)
    (info : List (String × ℤ)) (k : String) (v : ℤ)
    (hk : lookupInfo info k = some v) (h1 : obj1.product_id ≠ k) :
    lookupInfo (innerScan mname vstrict numSets obj1 info q).1 k = some v := by
  induction q with
  | nil => simpa [innerScan]
  | cons o2 rest ih =>
    unfold innerScan
    by_cases hid : o2.product_id = obj1.product_id
    · simpa [hid] using ih
    · by_cases hb : baseVerdict obj1 o2
      · rw [if_neg hid, if_pos hb]
        cases hl : lookupInfo info o2.product_id with
        | some w =>
          simp only [hl]
          show lookupInfo (updInfo info obj1.product_id w) k = some v
          rw [lookupInfo_upd_ne _ _ _ _ h1]
          exact hk
        | none =>
          have h2 : o2.product_id ≠ k := fun he => by rw [he, hk] at hl; cases hl
          simp only [hl]
          show lookupInfo
            (updInfo (updInfo info obj1.product_id (getMaxIdx numSets info + 1))
              o2.product_id (getMaxIdx numSets info + 1)) k = some v
          rw [lookupInfo_upd_ne _ _ _ _ h2, lookupInfo_upd_ne _ _ _ _ h1]
          exact hk
      · simpa [hid, hb] using ih

theorem processStep_preserves (mname : Listing → String) (vstrict : Bool)
    (numSets : ℤ) (catalog : List Listing) (info : List (String × ℤ))
    (obj1 : Listing) (k : String) (v : ℤ)
    (hk : lookupInfo info k = some v) :
    lookupInfo (processStep mname vstrict numSets catalog info obj1) k = some v := by
  unfold processStep
  by_cases hs : (lookupInfo info obj1.product_id).isSome
  · simpa [hs] using hk
  · have h1 : obj1.product_id ≠ k := by
      intro he
      rw [he, hk] at hs
      simp at hs
    have hres := innerScan_preserves mname vstrict numSets obj1
      (catalog.filter
        (fun o => decide (o.category = obj1.category) && decide (o.brand = obj1.brand)))
      info k v hk h1
    simp only [hs, if_neg, Bool.false_eq_true, if_false]
    split
    · exact hres
    · rw [lookupInfo_upd_ne _ _ _ _ h1]
      exact hres

theorem foldl_processStep_preserves (mname : Listing → String) (vstrict : Bool)
    (numSets : ℤ) (catalog queryset : List Listing)
    (info : List (String × ℤ)) (k : String) (v : ℤ)
    (hk : lookupInfo info k = some v) :
    lookupInfo (queryset.foldl (processStep mname vstrict numSets catalog) info) k
      = some v := by
  induction queryset generalizing info with
  | nil => simpa
  | cons o rest ih =>
    exact ih _ (processStep_preserves mname vstrict numSets catalog info o k v hk)

theorem seedInfo_lookup (catalog : List Listing)
    (hnodup : (catalog.map Listing.product_id).Nodup)
    (L : Listing) (hL : L ∈ catalog) (v : ℤ) (hv : L.duplicate_set = some v) :
    lookupInfo (seedInfo catalog) L.product_id = some v := by
  induction catalog with
  | nil => cases hL
  | cons M rest ih =>
    have hnd := hnodup
    rw [List.map_cons, List.nodup_cons] at hnd
    rcases List.mem_cons.mp hL with hLM | hLr
    · subst hLM
      simp [seedInfo, hv, lookupInfo]
    · have hpid : M.product_id ≠ L.product_id := by
        intro he
        exact hnd.1 (he ▸ List.mem_map_of_mem Listing.product_id hLr)
      cases hM : M.duplicate_set with
      | none => simpa [seedInfo, hM] using ih hnd.2 hLr
      | some w =>
        simp only [seedInfo, List.filterMap_cons, hM, Option.map_some]
        simpa [lookupInfo, hpid] using ih hnd.2 hLr

/-- The `info` assignment of lines 1608-1613, executed at the first partner
satisfying the base condition regardless of the guarded flag: join the
partner's existing id, or mint `get_max + 1` for both. -/
def assignInfo (numSets : ℤ) (info : List (String × ℤ)) (obj1 obj2 : Listing) :
    List (String × ℤ) :=
  match lookupInfo info obj2.product_id with
  | some v => updInfo info obj1.product_id v
  | none =>
    let m := getMaxIdx numSets info
    updInfo (updInfo info obj1.product_id (m + 1)) obj2.product_id (m + 1)

theorem innerScan_eq_find (mname : Listing → String) (vstrict : Bool)
    (numSets : ℤ) (obj1 : Listing) (info : List (String × ℤ)) (q : List Listing) :
    innerScan mname vstrict numSets obj1 info q =
      match q.find?
        (fun o2 => !decide (o2.product_id = obj1.product_id) && baseVerdict obj1 o2) with
      | none => (info, false)
      | some o2 => (assignInfo numSets info obj1 o2, guardedFlag mname vstrict obj1 o2) := by
  induction q with
  | nil => rfl
  | cons o2 rest ih =>
    unfold innerScan
    by_cases hid : o2.product_id = obj1.product_id
    · rw [if_pos hid, ih, List.find?_cons_of_neg]
      simp [hid]
    · rw [if_neg hid]
      by_cases hb : baseVerdict obj1 o2
      · rw [if_pos hb, List.find?_cons_of_pos]
        · rfl
        · simp [hid, hb]
      · rw [if_neg hb, ih, List.find?_cons_of_neg]
        simp [hid]
        exact Bool.of_not_eq_true hb

/-!
Alert Auditor: `update_alert_flags` of `scrapingtool/db_manager.py`
(lines 1654-1710).  The alert writes (`obj1.alert = True`, `obj2.alert = True`)
are modelled as updates to a map from `product_id` to the alert flag;
`duplicate_set` is only read.  Note that `duplicate_flag` is initialised
once per `obj1` (line 1670) and is NOT reset inside the inner loop: a
partner that fails the base condition of line 1680 is judged with the flag
left over from the previous partner. -/

/-- The `duplicate_flag` value computed inside the branch of lines
1680-1692: `True`, subject only to the suspicious same-title / far-count
veto (the auditor has no `c == False` override, no model-name comparison
and no `very_strict` check). -/
def auditFlagBranch (x y : Listing) : Bool :=
  let a := sameTitle x y
  let c := closeCount x y
  let dt := |x.total_ratings - y.total_ratings|
  let flag := true
  let flag :=
    if flag && (a && !c) then
      if 1000 < max x.total_ratings y.total_ratings then
        if 60 < dt then false else flag
      else
        if 20 < dt then false else flag
    else flag
  flag

/-- The stateless per-pair reading of the auditor's predicate: the value
`duplicate_flag` would take for a pair considered in isolation (flag reset
before the pair). -/
def auditPairVerdict (x y : Listing) : Bool :=
  if baseVerdict x y then auditFlagBranch x y else false

/-- Python `obj.alert = True` on the row keyed by `pid`. -/
def setAlert (s : String → Bool) (pid : String) : String → Bool :=
  fun p => if p = pid then true else s p

/-- The inner loop of lines 1672-1702: carry `duplicate_flag` across
partners, recomputing it only when the base condition holds; after each
partner, flag both rows when the carried verdict disagrees with
`duplicate_set` equality. -/
def auditScan (obj1 : Listing) :
    List Listing → Bool → (String → Bool) → Bool × (String → Bool)
  | [], flag, s => (flag, s)
  | o2 :: rest, flag, s =>
    if o2.product_id = obj1.product_id then auditScan obj1 rest flag s
    else
      let flag2 := if baseVerdict obj1 o2 then auditFlagBranch obj1 o2 else flag
      let s2 :=
        if flag2 then
          if obj1.duplicate_set ≠ o2.duplicate_set then
            setAlert (setAlert s obj1.product_id) o2.product_id
          else s
        else
          if obj1.duplicate_set = o2.duplicate_set then
            setAlert (setAlert s obj1.product_id) o2.product_id
          else s
      auditScan obj1 rest flag2 s2

/-- `update_alert_flags` (lines 1654-1710): for each `obj1` of the ordered
catalog, scan its category+brand partition (the query of line 1668) with
`duplicate_flag` initialised to `False` (line 1670), threading the alert
map. -/
def update_alert_flags_run (catalog : List Listing) (s0 : String → Bool) :
    String → Bool :=
  catalog.foldl
    (fun s obj1 =>
      (auditScan obj1
        (catalog.filter
          (fun o => decide (o.category = obj1.category) && decide (o.brand = obj1.brand)))
        false s).2)
    s0

/-- The most recent partner (scanning left to right) that passes the base
condition, i.e. the one whose guarded verdict the carried `duplicate_flag`
holds after the scan. -/
def lastBaseMatch (obj1 : Listing) : List Listing → Option Listing
  | [] => none
  | o2 :: rest =>
    match lastBaseMatch obj1 rest with
    | some m => some m
    | none =>
      if o2.product_id ≠ obj1.product_id ∧ baseVerdict obj1 o2 = true then some o2
      else none

theorem setAlert_preserves (s : String → Bool) (pid p : String)
    (h : s p = true) : setAlert s pid p = true := by
  unfold setAlert
  split <;> simp [h]

theorem auditScan_preserves (obj1 : Listing) (q : List Listing) (flag : Bool)
    (s : String → Bool) (p : String) (h : s p = true) :
    (auditScan obj1 q flag s).2 p = true := by
  induction q generalizing flag s with
  | nil => simpa [auditScan]
  | cons o2 rest ih =>
    unfold auditScan
    by_cases hid : o2.product_id = obj1.product_id
    · rw [if_pos hid]
      exact ih flag s h
    · rw [if_neg hid]
      apply ih
      split <;> split <;> split <;>
        first
        | exact setAlert_preserves _ _ _ (setAlert_preserves _ _ _ h)
        | exact h

theorem auditScan_fst_carryover (obj1 : Listing) (q : List Listing)
    (flag : Bool) (s : String → Bool) :
    (auditScan obj1 q flag s).1 =
      match lastBaseMatch obj1 q with
      | none => flag
      | some m => auditFlagBranch obj1 m := by
  induction q generalizing flag s with
  | nil => rfl
  | cons o2 rest ih =>
    unfold auditScan lastBaseMatch
    by_cases hid : o2.product_id = obj1.product_id
    · rw [if_pos hid, ih]
      have hcond : ¬(o2.product_id ≠ obj1.product_id ∧ baseVerdict obj1 o2 = true) :=
        fun hc => hc.1 hid
      cases hlb : lastBaseMatch obj1 rest with
      | some m => rfl
      | none => rw [if_neg hcond]
    · rw [if_neg hid]
      by_cases hb : baseVerdict obj1 o2
      · rw [ih]
        cases hlb : lastBaseMatch obj1 rest with
        | some m => rfl
        | none =>
          have hcond : o2.product_id ≠ obj1.product_id ∧ baseVerdict obj1 o2 = true :=
            ⟨hid, hb⟩
          rw [if_pos hcond, if_pos hb]
      · rw [ih]
        cases hlb : lastBaseMatch obj1 rest with
        | some m => rfl
        | none =>
          have hcond : ¬(o2.product_id ≠ obj1.product_id ∧ baseVerdict obj1 o2 = true) :=
            fun hc => hb hc.2
          rw [if_neg hcond, if_neg hb]

/-!
Concrete listings used in counterexamples and witnesses.  Every group below
shares one category and brand (the comparison scope) and is listed in the
catalog order (category asc, brand asc, total_ratings desc) used by the
outer and inner queries.
-/

/-- Listing with the highest rating count of the clustering counterexample
group: short title `t`, 1000 ratings, average 4.5. -/
def lA : Listing :=
  { product_id := "A", category := "e", brand := "b", title := "tA",
    short_title := "t", avg_rating := some (mkRat 9 2), total_ratings := 1000,
    duplicate_set := none, alert := false }

/-- Same short title and average as `lA`, 500 ratings. -/
def lB : Listing :=
  { product_id := "B", category := "e", brand := "b", title := "tB",
    short_title := "t", avg_rating := some (mkRat 9 2), total_ratings := 500,
    duplicate_set := none, alert := false }

/-- Same short title and average as `lA`, 450 ratings: a true duplicate of
`lB` (within 10 percent) but far from `lA`. -/
def lC : Listing :=
  { product_id := "C", category := "e", brand := "b", title := "tC",
    short_title := "t", avg_rating := some (mkRat 9 2), total_ratings := 450,
    duplicate_set := none, alert := false }

/-- The three-listing catalog of the clustering counterexample. -/
def cat3 : List Listing := [lA, lB, lC]

/-- Auditor counterexample, cluster 1: short title `t`, 1000 ratings. -/
def lP : Listing :=
  { product_id := "P", category := "e", brand := "b", title := "tP",
    short_title := "t", avg_rating := some (mkRat 9 2), total_ratings := 1000,
    duplicate_set := some 1, alert := false }

/-- Auditor counterexample, cluster 1: a genuine duplicate of `lP`. -/
def lQ : Listing :=
  { product_id := "Q", category := "e", brand := "b", title := "tQ",
    short_title := "t", avg_rating := some (mkRat 9 2), total_ratings := 995,
    duplicate_set := some 1, alert := false }

/-- Auditor counterexample, cluster 2: unrelated to `lP` and `lQ` on every
signal (different short title, null rating average, far rating count). -/
def lR : Listing :=
  { product_id := "R", category := "e", brand := "b", title := "tR",
    short_title := "u", avg_rating := none, total_ratings := 10,
    duplicate_set := some 2, alert := false }

/-- Incremental-reindex witness: an already-clustered listing (set 7). -/
def lS : Listing :=
  { product_id := "S", category := "e", brand := "b", title := "tS",
    short_title := "s one", avg_rating := some (mkRat 4 1), total_ratings := 300,
    duplicate_set := some 7, alert := false }

/-- Incremental-reindex witness: a new, unclustered listing close to `lS`. -/
def lT : Listing :=
  { product_id := "T", category := "e", brand := "b", title := "tT",
    short_title := "s one", avg_rating := some (mkRat 4 1), total_ratings := 290,
    duplicate_set := none, alert := false }

/-- Majority-vote witness: 10 ratings, short title `t`. -/
def lU : Listing :=
  { product_id := "U", category := "e", brand := "b", title := "tU",
    short_title := "t", avg_rating := some (mkRat 4 1), total_ratings := 10,
    duplicate_set := none, alert := false }

/-- Majority-vote witness: 200 ratings (closeCount fails against `lU`),
same short title and average. -/
def lV : Listing :=
  { product_id := "V", category := "e", brand := "b", title := "tV",
    short_title := "t", avg_rating := some (mkRat 4 1), total_ratings := 200,
    duplicate_set := none, alert := false }

/-- closeCount counterexample: 100 ratings. -/
def lX3 : Listing :=
  { product_id := "X3", category := "e", brand := "b", title := "tX",
    short_title := "t", avg_rating := some (mkRat 9 2), total_ratings := 100,
    duplicate_set := none, alert := false }

/-- closeCount counterexample: 94 ratings (gap 6, above the claimed
absolute band of 5 but within 10 percent of 100). -/
def lY3 : Listing :=
  { product_id := "Y3", category := "e", brand := "b", title := "tY",
    short_title := "t", avg_rating := some (mkRat 9 2), total_ratings := 94,
    duplicate_set := none, alert := false }

/-- Brand-guard counterexample: short title `alpha buds`, equal count and
average with `lY4`. -/
def lX4 : Listing :=
  { product_id := "X4", category := "e", brand := "b", title := "alpha buds pro",
    short_title := "alpha buds", avg_rating := some (mkRat 9 2), total_ratings := 500,
    duplicate_set := none, alert := false }

/-- Brand-guard counterexample: short title `beta buds`, first token
differing from `lX4`. -/
def lY4 : Listing :=
  { product_id := "Y4", category := "e", brand := "b", title := "beta buds max",
    short_title := "beta buds", avg_rating := some (mkRat 9 2), total_ratings := 500,
    duplicate_set := none, alert := false }

/-- Model-guard witness: 120 ratings, short title `aa bb`. -/
def lW4 : Listing :=
  { product_id := "W4", category := "e", brand := "b", title := "ta",
    short_title := "aa bb", avg_rating := some (mkRat 9 2), total_ratings := 120,
    duplicate_set := none, alert := false }

/-- Model-guard witness: 110 ratings, short title `cc dd`. -/
def lV4 : Listing :=
  { product_id := "V4", category := "e", brand := "b", title := "tb",
    short_title := "cc dd", avg_rating := some (mkRat 9 2), total_ratings := 110,
    duplicate_set := none, alert := false }

/-- Strict-mode witness: identical comparison fields. -/
def lW7 : Listing :=
  { product_id := "W7", category := "e", brand := "b", title := "tw",
    short_title := "t", avg_rating := some (mkRat 9 2), total_ratings := 100,
    duplicate_set := none, alert := false }

/-- Strict-mode witness partner: same short title, average and count as
`lW7`. -/
def lV7 : Listing :=
  { product_id := "V7", category := "e", brand := "b", title := "tv",
    short_title := "t", avg_rating := some (mkRat 9 2), total_ratings := 100,
    duplicate_set := none, alert := false }

/-- Alert-monotonicity witness listing (its partition is just itself). -/
def lZ : Listing :=
  { product_id := "Z", category := "e", brand := "b", title := "tz",
    short_title := "z", avg_rating := some (mkRat 3 1), total_ratings := 5,
    duplicate_set := some 4, alert := true }

/-- C1: for every pair of listings in the same category and brand scope
(with the comparison fields populated, as in the model), the base verdict of
line 1562 is true exactly when at least two of the three signals
`sameTitle`, `sameRating`, `closeCount` hold; in particular `sameTitle`
together with `sameRating` alone (with `closeCount` false) yields a true
base verdict. -/
theorem baseVerdict_majority_vote (x y : Listing) :
    (baseVerdict x y = true ↔
      2 ≤ [sameTitle x y, sameRating x y, closeCount x y].count true) ∧
    (sameTitle x y = true → sameRating x y = true → closeCount x y = false →
      baseVerdict x y = true) := by
  cases hst : sameTitle x y <;> cases hsr : sameRating x y <;>
    cases hcc : closeCount x y <;>
      simp [baseVerdict, hst, hsr, hcc]

/-- Witness for C1 at a concrete pair with `sameTitle` and `sameRating` true
and `closeCount` false (10 vs 200 ratings). -/
theorem baseVerdict_majority_vote_witness :
    sameTitle lU lV = true ∧ sameRating lU lV = true ∧ closeCount lU lV = false ∧
    baseVerdict lU lV = true :=
  ⟨by decide, by decide, by decide,
    (baseVerdict_majority_vote lU lV).2 (by decide) (by decide) (by decide)⟩

/-- C3 (counterexample): with 100 and 94 total ratings (both at most 100,
unequal, gap 6 above the claimed absolute band of 5) the code's `closeCount`
is nevertheless true, because line 1560 applies the single
`0.1 * max` tolerance at every magnitude: there is no two-regime rule. -/
theorem closeCount_two_regime_counterexample :
    lX3.total_ratings ≤ 100 ∧ lY3.total_ratings ≤ 100 ∧
    lX3.total_ratings ≠ lY3.total_ratings ∧
    5 < |lX3.total_ratings - lY3.total_ratings| ∧
    closeCount lX3 lY3 = true := by decide

/-- C3 (amended): `closeCount` is the single-regime rule at every magnitude:
counts equal, or an absolute gap of at most `0.1 * max(total_ratings)` —
there is no separate treatment of counts at most 100. -/
theorem closeCount_single_regime (x y : Listing) :
    closeCount x y =
      (decide (x.total_ratings = y.total_ratings) ||
        decide ((|x.total_ratings - y.total_ratings| : ℤ) ≤
          (1/10 : ℚ) * ((max x.total_ratings y.total_ratings : ℤ) : ℚ))) := by
  unfold closeCount
  have hiff : 10 * |x.total_ratings - y.total_ratings| ≤
      max x.total_ratings y.total_ratings ↔
      ((|x.total_ratings - y.total_ratings| : ℤ) : ℚ) ≤
        (1/10 : ℚ) * ((max x.total_ratings y.total_ratings : ℤ) : ℚ) := by
    rw [← Int.cast_le (R := ℚ) (m := 10 * |x.total_ratings - y.total_ratings|)]
    push_cast
    constructor <;> intro h <;> linarith
  rw [decide_eq_decide.mpr hiff]

/-- C8: the similarity verdict is symmetric in its two listings, for every
model-name extractor and in both strictness modes. -/
theorem isDup_symmetric (mname : Listing → String) (vstrict : Bool)
    (a b : Listing) : isDup mname vstrict a b = isDup mname vstrict b a :=
  isDup_comm mname vstrict a b

theorem strictTailForce (fl : Bool) (p q : Prop) [Decidable p] [Decidable q]
    (h : (if true && fl then (if p ∨ q then false else fl) else fl) = true) :
    ¬p ∧ ¬q := by
  cases fl with
  | false => simp at h
  | true =>
    simp only [Bool.true_and, if_true] at h
    by_cases hpq : p ∨ q
    · rw [if_pos hpq] at h
      cases h
    · exact not_or.mp hpq

/-- C7: with `very_strict` enabled the verdict is true only if the two
listings have exactly equal `total_ratings` and exactly equal `avg_rating`
(lines 1603-1606); and a pair with equal short titles, equal averages and
equal counts is accepted. -/
theorem very_strict_exact_equality (mname : Listing → String) (x y : Listing) :
    (isDup mname true x y = true →
      x.total_ratings = y.total_ratings ∧ x.avg_rating = y.avg_rating) ∧
    (sameTitle x y = true → x.avg_rating = y.avg_rating →
      x.total_ratings = y.total_ratings → isDup mname true x y = true) := by
  constructor
  · intro h
    unfold isDup at h
    by_cases hbv : baseVerdict x y = true
    · rw [if_pos hbv] at h
      simp only [guardedFlag] at h
      have hf := strictTailForce _ _ _ h
      exact ⟨not_ne_iff.mp hf.1, not_ne_iff.mp hf.2⟩
    · rw [if_neg hbv] at h
      cases h
  · intro hst havg htot
    have hb : sameRating x y = true := by
      unfold sameRating
      rw [havg]
      simp
    have hc : closeCount x y = true := by
      unfold closeCount
      rw [htot]
      simp
    unfold isDup baseVerdict guardedFlag
    rw [hst, hb, hc]
    simp [htot, havg]

/-- Witness for C7 at a concrete pair with identical short title, average
and count; both directions of the theorem are exercised. -/
theorem very_strict_exact_equality_witness :
    sameTitle lW7 lV7 = true ∧ lW7.avg_rating = lV7.avg_rating ∧
    lW7.total_ratings = lV7.total_ratings ∧
    isDup mnameFallback true lW7 lV7 = true ∧
    (lW7.total_ratings = lV7.total_ratings ∧ lW7.avg_rating = lV7.avg_rating) := by
  refine ⟨by decide, by decide, by decide, ?_, ?_⟩
  · exact (very_strict_exact_equality mnameFallback lW7 lV7).2 (by decide) rfl rfl
  · exact (very_strict_exact_equality mnameFallback lW7 lV7).1
      ((very_strict_exact_equality mnameFallback lW7 lV7).2 (by decide) rfl rfl)

/-- C4 (counterexample): the canonical similarity model performs no
product-details brand lookup at all.  At this pair the verdict is true with
`sameTitle` false and the first whitespace-tokens of the short titles
differing, under BOTH behaviours of the abstract model-name extractor
(names equal, via `mnameConst`, and names differing, via `mnameFallback`) —
so no brand comparison can override it to false, contradicting the claimed
guard (which exists only in the legacy `update_duplicate_set` of
`db_manager.py`, lines 1182-1195). -/
theorem brand_guard_counterexample :
    isDup mnameConst false lX4 lY4 = true ∧
    isDup mnameFallback false lX4 lY4 = true ∧
    sameTitle lX4 lY4 = false ∧
    mnameFallback lX4 ≠ mnameFallback lY4 ∧
    ((wordsL lX4.short_title.toList).take 2).flatten ≠
      ((wordsL lY4.short_title.toList).take 2).flatten := by decide

/-- C4 (amended): when the verdict is true but `sameTitle` is false, the
canonical model compares the per-listing model names extracted from the raw
titles (the abstracted regex of lines 1578-1586); if they differ while
`sameRating` holds and the counts are unequal, the verdict survives only
when the stricter count-gap vetoes of lines 1590-1599 do not fire (gap at
most 500 when the smaller count exceeds 1000, gap at most 50 when it
exceeds 100), and `closeCount` must hold in any case; no brand lookup is
involved. -/
theorem model_name_guard_bounds (mname : Listing → String) (x y : Listing)
    (hdup : isDup mname false x y = true)
    (hst : sameTitle x y = false)
    (hmn : mname x ≠ mname y)
    (hsr : sameRating x y = true)
    (hne : x.total_ratings ≠ y.total_ratings) :
    closeCount x y = true ∧
    ¬(1000 < min x.total_ratings y.total_ratings ∧
      500 < |x.total_ratings - y.total_ratings|) ∧
    ¬(100 < min x.total_ratings y.total_ratings ∧
      50 < |x.total_ratings - y.total_ratings|) := by
  unfold isDup at hdup
  by_cases hbv : baseVerdict x y = true
  · rw [if_pos hbv] at hdup
    by_cases h1 : 1000 < min x.total_ratings y.total_ratings ∧
        500 < |x.total_ratings - y.total_ratings|
    · exfalso
      simp [guardedFlag, hst, hsr, hmn, hne, h1] at hdup
    · by_cases h2 : 100 < min x.total_ratings y.total_ratings ∧
          50 < |x.total_ratings - y.total_ratings|
      · exfalso
        simp [guardedFlag, hst, hsr, hmn, hne, h1, h2] at hdup
      · cases hc : closeCount x y with
        | false =>
          exfalso
          simp [guardedFlag, hst, hsr, hmn, hne, h1, h2, hc] at hdup
        | true => exact ⟨rfl, h1, h2⟩
  · rw [if_neg hbv] at hdup
    cases hdup

/-- Witness for C4 (amended) at a concrete pair: different short titles and
extracted model names, equal averages, counts 120 and 110. -/
theorem model_name_guard_bounds_witness :
    isDup mnameFallback false lW4 lV4 = true ∧
    sameTitle lW4 lV4 = false ∧
    mnameFallback lW4 ≠ mnameFallback lV4 ∧
    sameRating lW4 lV4 = true ∧
    lW4.total_ratings ≠ lV4.total_ratings ∧
    (closeCount lW4 lV4 = true ∧
      ¬(1000 < min lW4.total_ratings lV4.total_ratings ∧
        500 < |lW4.total_ratings - lV4.total_ratings|) ∧
      ¬(100 < min lW4.total_ratings lV4.total_ratings ∧
        50 < |lW4.total_ratings - lV4.total_ratings|)) :=
  ⟨by decide, by decide, by decide, by decide, by decide,
    model_name_guard_bounds mnameFallback lW4 lV4 (by decide) (by decide)
      (by decide) (by decide) (by decide)⟩

/-- C2 (counterexample): in a full-reindex pass over the sorted catalog
`[lA, lB, lC]` (one partition, strictly descending rating counts), listing
`lC` is still unassigned when scanned, the first partner with a true final
verdict is `lB` (the verdict against `lA` is false), yet the run gives `lC`
a fresh cluster id different from `lB`'s: the scan broke at `lA`, whose
base condition holds even though the guards veto the verdict.  Under the
claim, `lC` would share `lB`'s cluster id. -/
theorem index_first_match_counterexample :
    isDup mnameFallback false lC lB = true ∧
    isDup mnameFallback false lC lA = false ∧
    lB.total_ratings < lA.total_ratings ∧ lC.total_ratings < lB.total_ratings ∧
    lA.category = lC.category ∧ lA.brand = lC.brand ∧
    lB.category = lC.category ∧ lB.brand = lC.brand ∧
    lookupInfo (List.foldl (processStep mnameFallback false 1 cat3) [] [lA, lB])
      lC.product_id = none ∧
    lookupInfo (index_duplicate_sets_run mnameFallback false cat3)
      lB.product_id = some 2 ∧
    lookupInfo (index_duplicate_sets_run mnameFallback false cat3)
      lC.product_id = some 4 := by decide

/-- C2 (amended): for a not-yet-assigned listing, one outer iteration stops
at the FIRST partner in the partition whose base two-of-three condition
holds, regardless of the final guarded verdict: if the guarded verdict is
true the listing joins that partner's cluster (the partner's id when
assigned, else a fresh id minted for both); if the guarded verdict is false
the assignment of lines 1608-1613 still happens (so an unassigned partner
still receives a minted id) and the listing's own entry is then overwritten
with a further fresh id; if no partner passes the base condition, the
listing alone receives a fresh id. -/
theorem processStep_first_base_match (mname : Listing → String) (vstrict : Bool)
    (numSets : ℤ) (catalog : List Listing) (info : List (String × ℤ))
    (obj1 : Listing) (hnew : lookupInfo info obj1.product_id = none) :
    processStep mname vstrict numSets catalog info obj1 =
      match (catalog.filter
          (fun o => decide (o.category = obj1.category) &&
            decide (o.brand = obj1.brand))).find?
          (fun o2 => !decide (o2.product_id = obj1.product_id) &&
            baseVerdict obj1 o2) with
      | none => updInfo info obj1.product_id (getMaxIdx numSets info + 1)
      | some o2 =>
        if guardedFlag mname vstrict obj1 o2 then assignInfo numSets info obj1 o2
        else
          updInfo (assignInfo numSets info obj1 o2) obj1.product_id
            (getMaxIdx numSets (assignInfo numSets info obj1 o2) + 1) := by
  unfold processStep
  rw [hnew]
  simp only [Option.isSome_none, Bool.false_eq_true, if_false, innerScan_eq_find]
  cases hf : List.find?
      (fun o2 => !decide (o2.product_id = obj1.product_id) && baseVerdict obj1 o2)
      (catalog.filter
        (fun o => decide (o.category = obj1.category) &&
          decide (o.brand = obj1.brand))) with
  | none => rfl
  | some o2 => rfl

/-- Witness for C2 (amended): the first outer iteration of the full reindex
of `cat3` applied to the (unassigned) listing `lA` from the empty map. -/
theorem processStep_first_base_match_witness :
    processStep mnameFallback false 1 cat3 [] lA =
      match (cat3.filter
          (fun o => decide (o.category = lA.category) &&
            decide (o.brand = lA.brand))).find?
          (fun o2 => !decide (o2.product_id = lA.product_id) &&
            baseVerdict lA o2) with
      | none => updInfo [] lA.product_id (getMaxIdx 1 [] + 1)
      | some o2 =>
        if guardedFlag mnameFallback false lA o2 then assignInfo 1 [] lA o2
        else
          updInfo (assignInfo 1 [] lA o2) lA.product_id
            (getMaxIdx 1 (assignInfo 1 [] lA o2) + 1) :=
  processStep_first_base_match mnameFallback false 1 cat3 [] lA rfl

/-- C5: an incremental reindex never changes an assignment that was non-null
before the run: every listing of the catalog whose `duplicate_set` was
already populated keeps exactly that value in the resulting map (the
write-back of lines 1639-1643 then rewrites the same value).  Product ids
are assumed unique, as for a primary-key column. -/
theorem incremental_preserves_assignments (mname : Listing → String)
    (vstrict : Bool) (catalog : List Listing)
    (hnodup : (catalog.map Listing.product_id).Nodup)
    (L : Listing) (hL : L ∈ catalog) (v : ℤ) (hv : L.duplicate_set = some v) :
    lookupInfo (update_duplicate_set_run mname vstrict catalog) L.product_id
      = some v := by
  unfold update_duplicate_set_run
  exact foldl_processStep_preserves mname vstrict (numSetsIncr catalog) catalog
    (catalog.filter (fun l => l.duplicate_set.isNone)) (seedInfo catalog)
    L.product_id v (seedInfo_lookup catalog hnodup L hL v hv)

/-- Witness for C5: a two-listing catalog where `lS` is pre-assigned set 7
and the new listing `lT` is a near-duplicate of it; after the incremental
run `lS` still maps to 7. -/
theorem incremental_preserves_assignments_witness :
    ([lS, lT].map Listing.product_id).Nodup ∧ lS ∈ [lS, lT] ∧
    lS.duplicate_set = some 7 ∧
    lookupInfo (update_duplicate_set_run mnameFallback false [lS, lT])
      lS.product_id = some 7 :=
  ⟨by decide, by decide, by decide,
    incremental_preserves_assignments mnameFallback false [lS, lT] (by decide)
      lS (by decide) 7 (by decide)⟩

/-- C6 (counterexample): after an auditor run over `[lP, lQ, lR]` (one
partition, all alerts initially false), `lR` carries a true alert flag even
though every pair involving `lR` is judged non-duplicate by the similarity
model (both by the full indexing verdict and by the auditor's own stateless
per-pair predicate) and sits in a different cluster — the condition under
which the claim says no flag is set.  The flag comes from `duplicate_flag`
leaking over from the previous partner `lQ` inside `lP`'s scan. -/
theorem alert_carryover_counterexample :
    update_alert_flags_run [lP, lQ, lR] (fun _ => false) lR.product_id = true ∧
    auditPairVerdict lR lP = false ∧ auditPairVerdict lP lR = false ∧
    auditPairVerdict lR lQ = false ∧ auditPairVerdict lQ lR = false ∧
    isDup mnameFallback false lR lP = false ∧
    isDup mnameFallback false lP lR = false ∧
    isDup mnameFallback false lR lQ = false ∧
    isDup mnameFallback false lQ lR = false ∧
    lR.duplicate_set ≠ lP.duplicate_set ∧
    lR.duplicate_set ≠ lQ.duplicate_set := by decide

/-- C6 (amended): within one listing's partition scan the auditor's
`duplicate_flag` is stateful: after the scan it equals the verdict of the
MOST RECENT partner passing the base condition (the base vote with only the
suspicious same-title / far-count veto), or the initial flag (false per
listing) when no partner passed it; each partner's alert writes are decided
by this carried flag against `duplicate_set` equality, so a partner failing
the base condition is judged with the previous partner's verdict. -/
theorem audit_flag_carryover (obj1 : Listing) (q : List Listing) (flag : Bool)
    (s : String → Bool) :
    (auditScan obj1 q flag s).1 =
      match lastBaseMatch obj1 q with
      | none => flag
      | some m => auditFlagBranch obj1 m :=
  auditScan_fst_carryover obj1 q flag s

/-- C9: the short-title normalizer is idempotent on its own output whenever
that output is a valid title shape (trimmed, lowercase, free of the
`(Renewed)` marker and of every delimiter, and not ending in stripped
punctuation): re-applying it returns the output unchanged. -/
theorem normalize_idempotent_on_valid_output (t : List Char)
    (h : validTitleShape (get_short_title t) = true) :
    get_short_title (get_short_title t) = get_short_title t :=
  validTitleShape_fixed (get_short_title t) h

/-- Witness for C9 on the concrete title `asus zen`, which the normalizer
maps to itself and whose output is a valid title shape. -/
theorem normalize_idempotent_witness :
    validTitleShape (get_short_title "asus zen".toList) = true ∧
    get_short_title (get_short_title "asus zen".toList) =
      get_short_title "asus zen".toList :=
  ⟨by decide, normalize_idempotent_on_valid_output "asus zen".toList (by decide)⟩

theorem foldl_audit_preserves (base scan : List Listing) (s0 : String → Bool)
    (p : String) (h : s0 p = true) :
    (scan.foldl
      (fun s obj1 =>
        (auditScan obj1
          (base.filter
            (fun o => decide (o.category = obj1.category) &&
              decide (o.brand = obj1.brand)))
          false s).2)
      s0) p = true := by
  induction scan generalizing s0 with
  | nil => simpa
  | cons o rest ih => exact ih _ (auditScan_preserves o _ false s0 p h)

/-- C10: the auditor only ever writes `True` into alert flags: any listing
whose alert flag is true before a run still has it true afterwards, so
alert flags are monotone across repeated audit runs. -/
theorem alert_flags_monotone (catalog : List Listing) (s0 : String → Bool)
    (p : String) (h : s0 p = true) :
    update_alert_flags_run catalog s0 p = true :=
  foldl_audit_preserves catalog catalog s0 p h

/-- Witness for C10: a one-listing catalog whose listing `lZ` starts with a
true alert flag; it is still flagged after the audit run. -/
theorem alert_flags_monotone_witness :
    (fun q => decide (q = "Z")) "Z" = true ∧
    update_alert_flags_run [lZ] (fun q => decide (q = "Z")) "Z" = true :=
  ⟨by decide, alert_flags_monotone [lZ] (fun q => decide (q = "Z")) "Z" (by decide)⟩
